import Mathlib

/-!
Verification of the CallCenter-Classifier routing/caching/persistence core.

This file shallowly embeds the Python modules of the repository
(`ia_agent/cache_manager.py`, `ia_agent/complexity_analyzer.py`,
`ia_agent/intelligent_agent.py`, `ia_agent/api.py`) as executable Lean
definitions and proves properties of them.

Modelling conventions:
- `datetime` instants are abstract natural-number time stamps; only their
  total order and `+ timedelta` structure is used by the code.
- Python floats are modelled as rationals (`ℚ`); `round` is modelled as
  round-half-to-even, matching Python's `round`.
- Python dictionaries used as maps are modelled as association lists with
  dict update semantics (one binding per key).
- The MD5 digest in `CacheManager._generate_key` is kept abstract: all key
  statements are made about the digest pre-image `key_data`, i.e. they are
  statements "up to digest collision".
- Python truthiness on optional strings (`if model:`) is modelled
  explicitly: `none` and `some ""` are both falsy.
-/

/-! ## CacheManager (ia_agent/cache_manager.py, lines 30-181) -/

/-- Digest pre-image built by `CacheManager._generate_key` (lines 44-56):
`key_data = f"{text}:{model}" if model else text`.  The actual key is
`md5(key_data)`; we reason up to digest collision, i.e. about `key_data`. -/
def keyData (text : String) (model : Option String) : String :=
  match model with
  | some m => if m = "" then text else text ++ ":" ++ m
  | none => text

/-- One cache entry, as built by `CacheManager.set` (lines 99-105). -/
structure CacheEntry (α : Type) where
  data : α
  created_at : Nat
  expires_at : Nat
  last_accessed : Nat
  hits : Nat
deriving DecidableEq

/-- The in-memory cache `self.cache : Dict[str, Dict]`, as an association
list with at most one binding per key maintained by the operations. -/
def CacheState (α : Type) := List (String × CacheEntry α)

instance : Inhabited (CacheState α) := ⟨[]⟩

instance [DecidableEq α] : DecidableEq (CacheState α) :=
  inferInstanceAs (DecidableEq (List (String × CacheEntry α)))

/-- Dictionary lookup `self.cache[key]` / `key in self.cache`. -/
def cacheFind (s : CacheState α) (key : String) : Option (CacheEntry α) :=
  (s.find? (fun p => p.1 == key)).map (fun p => p.2)

/-- Dictionary deletion `del self.cache[key]`. -/
def cacheErase (s : CacheState α) (key : String) : CacheState α :=
  s.filter (fun p => p.1 != key)

/-- In-place mutation of the entry stored under `key` (Python mutates the
entry dict through the reference held by the cache). -/
def cacheModify (s : CacheState α) (key : String) (g : CacheEntry α → CacheEntry α) :
    CacheState α :=
  s.map (fun p => if p.1 == key then (p.1, g p.2) else p)

/-- `CacheManager.get` (lines 58-86): returns the cached payload or `None`,
together with the cache state after the call (an expired entry is deleted;
a hit increments `hits` and refreshes `last_accessed`). -/
def cacheGet (s : CacheState α) (now : Nat) (text : String) (model : Option String) :
    Option α × CacheState α :=
  let key := keyData text model
  match cacheFind s key with
  | none => (none, s)
  | some entry =>
    if entry.expires_at < now then
      (none, cacheErase s key)
    else
      (some entry.data,
       cacheModify s key (fun e => { e with hits := e.hits + 1, last_accessed := now }))

/-- `CacheManager.set` (lines 88-107): create or replace the entry under the
derived key, with expiry `now + ttl` and the hit counter reset to zero. -/
def cacheSet (s : CacheState α) (now ttl : Nat) (text : String) (data : α)
    (model : Option String) : CacheState α :=
  let key := keyData text model
  (key, { data := data, created_at := now, expires_at := now + ttl,
          last_accessed := now, hits := 0 }) :: cacheErase s key

/-- `CacheManager.clear` (lines 109-119). -/
def cacheClear (s : CacheState α) : Nat × CacheState α :=
  (s.length, [])

/-- `CacheManager.cleanup_expired` (lines 121-140). -/
def cacheCleanupExpired (s : CacheState α) (now : Nat) : Nat × CacheState α :=
  let expired := s.filter (fun p => p.2.expires_at < now)
  (expired.length, s.filter (fun p => !(p.2.expires_at < now : Bool)))

/-- `total_entries` of `CacheManager.get_stats` (line 150). -/
def totalEntries (s : CacheState α) : Nat := s.length

/-- `expired_entries` of `CacheManager.get_stats` (lines 151-154): entries
with `now > expires_at`. -/
def expiredEntries (s : CacheState α) (now : Nat) : Nat :=
  (s.filter (fun p => p.2.expires_at < now)).length

/-- `active_entries` of `CacheManager.get_stats` (line 159):
`total_entries - expired_entries`. -/
def activeEntries (s : CacheState α) (now : Nat) : Nat :=
  totalEntries s - expiredEntries s now

/-- `total_hits` of `CacheManager.get_stats` (line 155). -/
def totalHits (s : CacheState α) : Nat :=
  (s.map (fun p => p.2.hits)).sum

/-! ### Association-list lemmas for the cache operations -/

theorem cacheFind_modify (s : CacheState α) (k : String) (g : CacheEntry α → CacheEntry α) :
    cacheFind (cacheModify s k g) k = (cacheFind s k).map g := by
  induction s with
  | nil => rfl
  | cons p rest ih =>
    by_cases h : p.1 = k
    · subst h
      simp [cacheFind, cacheModify, List.find?_cons]
    · have hb : (p.1 == k) = false := beq_eq_false_iff_ne.mpr h
      simp only [cacheFind, cacheModify, List.map_cons, List.find?_cons, hb,
        Bool.false_eq_true, if_false, if_neg] at ih ⊢
      exact ih

theorem cacheFind_erase (s : CacheState α) (k : String) :
    cacheFind (cacheErase s k) k = none := by
  induction s with
  | nil => rfl
  | cons p rest ih =>
    by_cases h : p.1 = k
    · subst h
      have hb : (p.1 != p.1) = false := by simp
      simp only [cacheErase, List.filter_cons, hb, Bool.false_eq_true, if_false] at ih ⊢
      exact ih
    · have hb : (p.1 == k) = false := beq_eq_false_iff_ne.mpr h
      have hb2 : (p.1 != k) = true := by simp [bne, hb]
      simp only [cacheFind, cacheErase, List.filter_cons, hb2, if_true, List.find?_cons,
        hb] at ih ⊢
      exact ih

theorem cacheFind_set (s : CacheState α) (now ttl : Nat) (text : String) (r : α)
    (model : Option String) :
    cacheFind (cacheSet s now ttl text r model) (keyData text model) =
      some ⟨r, now, now + ttl, now, 0⟩ := by
  simp [cacheFind, cacheSet, List.find?_cons]

theorem activeEntries_eq_length_filter (s : CacheState α) (now : Nat) :
    activeEntries s now = (s.filter (fun p => decide (now ≤ p.2.expires_at))).length := by
  unfold activeEntries totalEntries expiredEntries
  induction s with
  | nil => rfl
  | cons p rest ih =>
    have hle := List.length_filter_le
      (fun p : String × CacheEntry α => decide (p.2.expires_at < now)) rest
    by_cases h : p.2.expires_at < now
    · have h2 : ¬ (now ≤ p.2.expires_at) := by omega
      simp only [List.filter_cons, decide_eq_true_eq, h, h2, if_true, if_false,
        List.length_cons]
      omega
    · have h2 : now ≤ p.2.expires_at := by omega
      simp only [List.filter_cons, decide_eq_true_eq, h, h2, if_true, if_false,
        List.length_cons]
      omega

/-- C1 (amended): for a fixed text, the cache-key pre-image separates an
overridden call (non-empty override) from a non-overridden one, and distinct
non-empty overrides give distinct pre-images.  (Across different texts the
derivation is not injective; see the counterexample.) -/
theorem C1_key_separation_same_text (text m1 m2 : String)
    (h1 : m1 ≠ "") (h2 : m2 ≠ "") :
    keyData text (some m1) ≠ keyData text none ∧
    (keyData text (some m1) = keyData text (some m2) → m1 = m2) := by
  constructor
  · intro heq
    simp only [keyData, if_neg h1] at heq
    have hlen := congrArg String.length heq
    simp only [String.length_append] at hlen
    have hm : m1.length ≠ 0 := by
      intro h0
      apply h1
      apply String.ext
      have hd0 : m1.data.length = 0 := h0
      exact List.length_eq_zero.mp hd0
    omega
  · intro heq
    simp only [keyData, if_neg h1, if_neg h2] at heq
    have hd := congrArg String.data heq
    simp only [String.data_append] at hd
    exact String.ext (List.append_cancel_left hd)

/-- C1 counterexample: key derivation is not injective up to digest
collision.  The pair (text `"a:b"`, no override) and the pair (text `"a"`,
override `"b"`) differ in text and in override presence, yet produce the
same digest pre-image, hence the same MD5 cache key. -/
theorem C1_counterexample :
    keyData "a:b" none = keyData "a" (some "b") ∧
    ¬("a:b" = "a" ∧ (none : Option String) = some "b") := by
  constructor
  · decide
  · decide

/-- C1 witness: the separation theorem applied at text `"t"`, overrides
`"tfidf"` and `"tfidf"`. -/
theorem C1_key_separation_same_text_witness :
    keyData "t" (some "tfidf") ≠ keyData "t" none ∧
    (keyData "t" (some "tfidf") = keyData "t" (some "tfidf") → "tfidf" = "tfidf") :=
  C1_key_separation_same_text "t" "tfidf" "tfidf" (by decide) (by decide)

/-- C2 (amended): an entry is visible to `get` while `now ≤ expires_at`;
strictly after `expires_at` the entry is a miss, it is deleted by `get`,
and `stats` does not count it among the active entries (`active_entries`
counts exactly the entries with `now ≤ expires_at`). -/
theorem C2_cache_expiry (s : CacheState α) (text : String) (model : Option String)
    (now : Nat) (e : CacheEntry α)
    (hfind : cacheFind s (keyData text model) = some e)
    (hexp : e.expires_at < now) :
    (cacheGet s now text model).1 = none ∧
    cacheFind (cacheGet s now text model).2 (keyData text model) = none ∧
    activeEntries s now = (s.filter (fun p => decide (now ≤ p.2.expires_at))).length ∧
    (keyData text model, e) ∉ s.filter (fun p => decide (now ≤ p.2.expires_at)) := by
  refine ⟨?_, ?_, activeEntries_eq_length_filter s now, ?_⟩
  · simp [cacheGet, hfind, hexp]
  · simp [cacheGet, hfind, hexp, cacheFind_erase]
  · intro hmem
    have := (List.mem_filter.mp hmem).2
    simp only [decide_eq_true_eq] at this
    omega

/-- C2 counterexample: at `now = expires_at` exactly, `get` still returns
the entry (the code misses only when `now > expires_at`) and `stats` still
counts it as active, contradicting "at or after `expires_at`, `get`
returns a miss". -/
theorem C2_counterexample :
    (cacheGet [(keyData "t" none, ⟨7, 0, 5, 0, 0⟩)] 5 "t" none).1 = some 7 ∧
    activeEntries [(keyData "t" none, (⟨7, 0, 5, 0, 0⟩ : CacheEntry Nat))] 5 = 1 := by
  constructor
  · decide
  · decide

/-- C2 witness: the amended expiry theorem applied to a singleton cache
whose entry expired at time 5, read at time 6. -/
theorem C2_cache_expiry_witness :
    (cacheGet [(keyData "t" none, (⟨7, 0, 5, 0, 0⟩ : CacheEntry Nat))] 6 "t" none).1 = none ∧
    cacheFind (cacheGet [(keyData "t" none, (⟨7, 0, 5, 0, 0⟩ : CacheEntry Nat))] 6 "t" none).2
      (keyData "t" none) = none ∧
    activeEntries [(keyData "t" none, (⟨7, 0, 5, 0, 0⟩ : CacheEntry Nat))] 6 =
      ([(keyData "t" none, (⟨7, 0, 5, 0, 0⟩ : CacheEntry Nat))].filter
        (fun p => decide (6 ≤ p.2.expires_at))).length ∧
    (keyData "t" none, (⟨7, 0, 5, 0, 0⟩ : CacheEntry Nat)) ∉
      [(keyData "t" none, (⟨7, 0, 5, 0, 0⟩ : CacheEntry Nat))].filter
        (fun p => decide (6 ≤ p.2.expires_at)) :=
  C2_cache_expiry [(keyData "t" none, ⟨7, 0, 5, 0, 0⟩)] "t" none 6 ⟨7, 0, 5, 0, 0⟩
    (by decide) (by decide)

/-- C3: `set` creates or replaces the entry with expiry `now + ttl` and hit
count zero; a `get` performed before expiry returns the stored payload
unchanged and increments the entry's hit counter by exactly one (this holds
for the freshly set entry and, in general, for every live entry, so each
further `get` adds exactly one hit). -/
theorem C3_cache_roundtrip (s : CacheState α) (now ttl : Nat) (text : String)
    (model : Option String) (r : α) (now2 : Nat) (hlt : now2 < now + ttl) :
    cacheFind (cacheSet s now ttl text r model) (keyData text model) =
      some ⟨r, now, now + ttl, now, 0⟩ ∧
    (cacheGet (cacheSet s now ttl text r model) now2 text model).1 = some r ∧
    cacheFind (cacheGet (cacheSet s now ttl text r model) now2 text model).2
      (keyData text model) = some ⟨r, now, now + ttl, now2, 1⟩ ∧
    (∀ e : CacheEntry α, cacheFind s (keyData text model) = some e →
      now2 < e.expires_at →
      (cacheGet s now2 text model).1 = some e.data ∧
      cacheFind (cacheGet s now2 text model).2 (keyData text model) =
        some { e with hits := e.hits + 1, last_accessed := now2 }) := by
  have hfs := cacheFind_set s now ttl text r model
  have hnotexp : ¬ (now + ttl < now2) := by omega
  refine ⟨hfs, ?_, ?_, ?_⟩
  · simp [cacheGet, hfs, hnotexp]
  · simp [cacheGet, hfs, hnotexp, cacheFind_modify]
  · intro e hfind hlive
    have hne : ¬ (e.expires_at < now2) := by omega
    constructor
    · simp [cacheGet, hfind, hne]
    · simp [cacheGet, hfind, hne, cacheFind_modify]

/-- C3 witness: round-trip on the empty cache with payload 7, `ttl = 10`,
set at time 0 and read at time 3. -/
theorem C3_cache_roundtrip_witness :
    cacheFind (cacheSet ([] : CacheState Nat) 0 10 "t" 7 none) (keyData "t" none) =
      some ⟨7, 0, 0 + 10, 0, 0⟩ ∧
    (cacheGet (cacheSet ([] : CacheState Nat) 0 10 "t" 7 none) 3 "t" none).1 = some 7 ∧
    cacheFind (cacheGet (cacheSet ([] : CacheState Nat) 0 10 "t" 7 none) 3 "t" none).2
      (keyData "t" none) = some ⟨7, 0, 0 + 10, 3, 1⟩ ∧
    (∀ e : CacheEntry Nat, cacheFind ([] : CacheState Nat) (keyData "t" none) = some e →
      3 < e.expires_at →
      (cacheGet ([] : CacheState Nat) 3 "t" none).1 = some e.data ∧
      cacheFind (cacheGet ([] : CacheState Nat) 3 "t" none).2 (keyData "t" none) =
        some { e with hits := e.hits + 1, last_accessed := 3 }) :=
  C3_cache_roundtrip [] 0 10 "t" none 7 3 (by decide)

/-! ## ComplexityAnalyzer (ia_agent/complexity_analyzer.py)

Python floats are modelled as rationals: the literal `1.33` becomes
`133/100` and `round` becomes round-half-to-even (Python's rounding).
Python's Unicode word characters (for the `\b` regex boundaries) are
modelled as ASCII alphanumerics, `_`, and the lowercase accented letters
occurring in French ticket text. -/

/-- Python's built-in `round` on a rational: round half to even. -/
def pyRound (q : ℚ) : ℤ :=
  let f := ⌊q⌋
  let r := q - (f : ℚ)
  if r < 1/2 then f
  else if (1 : ℚ)/2 < r then f + 1
  else if f % 2 = 0 then f else f + 1

/-- Python's `round(x, 2)`. -/
def round2 (q : ℚ) : ℚ := (pyRound (q * 100) : ℚ) / 100

/-- Helper for `str.split()`: accumulates the current word (reversed). -/
def pyWordsAux : List Char → List Char → List (List Char)
  | [], cur => if cur = [] then [] else [cur.reverse]
  | c :: cs, cur =>
    if c.isWhitespace then
      if cur = [] then pyWordsAux cs [] else cur.reverse :: pyWordsAux cs []
    else pyWordsAux cs (c :: cur)

/-- Python `text.split()`: split on whitespace, dropping empty pieces. -/
def pyWords (s : List Char) : List (List Char) := pyWordsAux s []

/-- Python `str.strip()`: drop leading and trailing whitespace. -/
def pyStrip (s : List Char) : List Char :=
  ((s.dropWhile Char.isWhitespace).reverse.dropWhile Char.isWhitespace).reverse

/-- Accented French uppercase/lowercase pairs handled by Python `str.lower()`. -/
def accentLowerPairs : List (Char × Char) :=
  [('É', 'é'), ('È', 'è'), ('Ê', 'ê'), ('Ë', 'ë'), ('À', 'à'), ('Â', 'â'),
   ('Ä', 'ä'), ('Î', 'î'), ('Ï', 'ï'), ('Ô', 'ô'), ('Ö', 'ö'), ('Ù', 'ù'),
   ('Û', 'û'), ('Ü', 'ü'), ('Ç', 'ç'), ('Œ', 'œ')]

/-- Python `str.lower()`, per character (ASCII plus French accents). -/
def pyCharLower (c : Char) : Char :=
  if 'A' ≤ c && c ≤ 'Z' then Char.ofNat (c.toNat + 32)
  else match accentLowerPairs.find? (fun p => p.1 == c) with
       | some p => p.2
       | none => c

/-- Python `needle in hay` on strings (contiguous substring test). -/
def containsSub (needle : List Char) : List Char → Bool
  | [] => needle.isEmpty
  | c :: cs => needle.isPrefixOf (c :: cs) || containsSub needle cs

/-- `ComplexityAnalyzer.TECHNICAL_KEYWORDS` (lines 25-49). -/
def technicalKeywords : List String :=
  ["ordinateur", "écran", "clavier", "souris", "imprimante", "serveur",
   "disque", "ram", "processeur", "carte", "câble", "périphérique",
   "logiciel", "application", "système", "programme", "base de données",
   "mise à jour", "installation", "configuration", "paramètre",
   "réseau", "connexion", "wifi", "internet", "vpn", "firewall",
   "proxy", "dns", "routeur", "switch", "port",
   "mot de passe", "accès", "droits", "permission", "compte",
   "authentification", "sécurité", "token", "certificat",
   "congé", "absence", "salaire", "formation", "contrat",
   "badge", "horaire", "pointage", "rh",
   "bug", "erreur", "problème", "incident", "ticket",
   "support", "maintenance", "dépannage"]

/-- `ComplexityAnalyzer.COMPLEX_STRUCTURE_WORDS` (lines 52-56). -/
def complexStructureWords : List String :=
  ["cependant", "néanmoins", "toutefois", "en revanche", "malgré",
   "bien que", "quoique", "à condition que", "pourvu que", "afin que",
   "de sorte que", "ainsi que", "tandis que", "alors que", "dès lors que"]

/-- A word counts as technical when it contains any keyword as a substring
(`any(keyword in word for keyword in self.technical_keywords)`, line 163). -/
def isTechnicalWord (w : List Char) : Bool :=
  technicalKeywords.any (fun k => containsSub k.data w)

/-- `technical_count` (lines 161-164). -/
def technicalCount (ws : List (List Char)) : Nat :=
  (ws.filter isTechnicalWord).length

/-- The bucketed base score of `_analyze_vocabulary` (lines 170-177). -/
def vocabBase (t : Nat) : ℚ :=
  if t = 0 then 20
  else if t ≤ 2 then 40
  else if t ≤ 4 then 60
  else 80 + min 20 ((t : ℚ) * 2)

/-- `_analyze_vocabulary` (lines 148-183) on an already split word list. -/
def vocabOfWords (ws : List (List Char)) : ℚ :=
  let t := technicalCount ws
  let density : ℚ := if ws.length = 0 then 0 else (t : ℚ) / (ws.length : ℚ)
  let base := vocabBase t + (if 3/10 < density then 10 else 0)
  min 100 base

/-- `ComplexityAnalyzer._analyze_vocabulary` (lines 148-183); the text is
a character list. -/
def analyzeVocabulary (text : List Char) : ℚ := vocabOfWords (pyWords text)

/-- `ComplexityAnalyzer._analyze_length` (lines 119-146). -/
def analyzeLength (text : List Char) : ℚ :=
  let wc := (pyWords text).length
  if wc < 5 then 10
  else if wc < 15 then 20 + ((wc : ℚ) - 5) * 2
  else if wc < 30 then 40 + ((wc : ℚ) - 15) * (133/100)
  else if wc < 50 then 60 + ((wc : ℚ) - 30) * 1
  else min 100 (80 + ((wc : ℚ) - 50) * (1/2))

/-- Sentence terminators of the regex `[.!?]+`. -/
def sentenceEnd (c : Char) : Bool := c == '.' || c == '!' || c == '?'

/-- Counter for `len(re.findall(r'[.!?]+', text))`: number of maximal runs
of sentence terminators.  The flag records being inside a run. -/
def countRunsAux : List Char → Bool → Nat
  | [], _ => 0
  | c :: cs, inRun =>
    if sentenceEnd c then (if inRun then 0 else 1) + countRunsAux cs true
    else countRunsAux cs false

def countSentenceRuns (s : List Char) : Nat := countRunsAux s false

/-- Characters of the regex `[,;:()«»"]`. -/
def complexPunct (c : Char) : Bool :=
  c == ',' || c == ';' || c == ':' || c == '(' || c == ')' ||
  c == '«' || c == '»' || c == '"'

/-- `complex_punct` count (line 199). -/
def countComplexPunct (s : List Char) : Nat := (s.filter complexPunct).length

/-- `complex_words` count (lines 202-205): connectives contained in the text. -/
def countComplexStructureWords (text : List Char) : Nat :=
  (complexStructureWords.filter (fun w => containsSub w.data text)).length

/-- `ComplexityAnalyzer._analyze_structure` (lines 185-223). -/
def analyzeStructure (text : List Char) : ℚ :=
  let sc := countSentenceRuns text
  let cp := countComplexPunct text
  let cw := countComplexStructureWords text
  let base : ℚ :=
    if sc ≤ 1 then 20
    else if sc = 2 then 40
    else if sc = 3 then 60
    else 70 + min 30 ((sc : ℚ) * 5)
  let punctBonus : ℚ := min 20 ((cp : ℚ) * 3)
  let structBonus : ℚ := min 15 ((cw : ℚ) * 10)
  min 100 (base + punctBonus + structBonus)

/-- Word characters for the `\b` regex boundary (model of Python `\w`). -/
def wordChar (c : Char) : Bool :=
  c.isAlphanum || c == '_' ||
    ['à', 'â', 'ä', 'é', 'è', 'ê', 'ë', 'î', 'ï', 'ô', 'ö', 'ù', 'û', 'ü',
     'ç', 'œ'].contains c

def wordOpt : Option Char → Bool
  | none => false
  | some c => wordChar c

/-- Tries the regex alternatives in order at the current position; an
alternative matches when it is a prefix of the remaining text and the
trailing `\b` boundary holds after it. -/
def tryAlts (alts : List (List Char)) (s : List Char) : Option (List Char) :=
  match alts with
  | [] => none
  | a :: rest =>
    if !a.isEmpty && a.isPrefixOf s && (wordOpt a.getLast? != wordOpt (s.drop a.length).head?)
    then some a
    else tryAlts rest s

/-- Fuel-driven left-to-right scanner counting non-overlapping matches of
`\b(alt1|alt2|...)\b`, the shape of every marker regex in
`_analyze_ambiguity`; `prev` is the character before the scan position. -/
def scanBAux (alts : List (List Char)) : Nat → Option Char → List Char → Nat
  | 0, _, _ => 0
  | _ + 1, _, [] => 0
  | fuel + 1, prev, c :: cs =>
    if wordOpt prev != wordChar c then
      match tryAlts alts (c :: cs) with
      | some a => 1 + scanBAux alts fuel a.getLast? ((c :: cs).drop a.length)
      | none => scanBAux alts fuel (some c) cs
    else scanBAux alts fuel (some c) cs

/-- `len(re.findall(r'\b(...|...)\b', text))`. -/
def findallWordBounded (alts : List String) (text : List Char) : Nat :=
  scanBAux (alts.map (fun a => a.data)) (text.length + 1) none text

/-- Interrogative markers of `_analyze_ambiguity` (line 239). -/
def interrogativeWords : List String :=
  ["comment", "pourquoi", "quoi", "où", "quand", "quel"]

/-- Negation markers (line 243); the alternative `n'` is written with an
explicit apostrophe character. -/
def negationAlts : List String :=
  ["ne", String.mk ['n', Char.ofNat 39], "pas", "jamais", "rien", "aucun", "personne"]

/-- Conditional markers (line 247). -/
def conditionAlts : List String :=
  ["si", "sauf", "excepté", "à condition", "en cas"]

/-- Uncertainty markers (line 251). -/
def uncertaintyAlts : List String :=
  ["peut-être", "probablement", "possiblement", "semble", "paraît"]

/-- `ComplexityAnalyzer._analyze_ambiguity` (lines 225-254). -/
def analyzeAmbiguity (text : List Char) : ℚ :=
  let s1 : ℚ := 10 +
    (if text.contains '?' ||
        interrogativeWords.any (fun q => containsSub q.data text) then 40 else 0)
  let negations := findallWordBounded negationAlts text
  let s2 := s1 + min 30 ((negations : ℚ) * 15)
  let conds := findallWordBounded conditionAlts text
  let s3 := s2 + min 30 ((conds : ℚ) * 20)
  let uncert := findallWordBounded uncertaintyAlts text
  let s4 := s3 + min 20 ((uncert : ℚ) * 15)
  min 100 s4

/-- The `details` dict built by `ComplexityAnalyzer.analyze` (lines 105-113). -/
structure AnalyzeDetails where
  length_score : ℚ
  vocabulary_score : ℚ
  structure_score : ℚ
  ambiguity_score : ℚ
  weight_length : ℚ
  weight_vocabulary : ℚ
  weight_structure : ℚ
  weight_ambiguity : ℚ
  text_length : Nat
  word_count : Nat
deriving DecidableEq

/-- `ComplexityAnalyzer.analyze` (lines 63-117).  The empty-input marker
dict is modelled as `none`; `text_clean = text.lower().strip()`. -/
def analyze (text : String) : ℤ × Option AnalyzeDetails :=
  if pyStrip text.data = [] then (0, none)
  else
    let clean : List Char := pyStrip (text.data.map pyCharLower)
    let ls := analyzeLength clean
    let vs := analyzeVocabulary clean
    let ss := analyzeStructure clean
    let ambs := analyzeAmbiguity clean
    let g := ls * (25/100) + vs * (35/100) + ss * (25/100) + ambs * (15/100)
    let score := pyRound (min 100 (max 0 g))
    (score,
     some { length_score := round2 ls, vocabulary_score := round2 vs,
            structure_score := round2 ss, ambiguity_score := round2 ambs,
            weight_length := 25/100, weight_vocabulary := 35/100,
            weight_structure := 25/100, weight_ambiguity := 15/100,
            text_length := clean.length, word_count := (pyWords clean).length })

/-! ### Bounds of the scorer components -/

theorem pyRound_nonneg (q : ℚ) (h : 0 ≤ q) : 0 ≤ pyRound q := by
  have hf : 0 ≤ ⌊q⌋ := Int.le_floor.mpr (by exact_mod_cast h)
  unfold pyRound
  dsimp only
  split_ifs <;> omega

theorem pyRound_le (q : ℚ) (h : q ≤ 100) : pyRound q ≤ 100 := by
  have hf : ⌊q⌋ ≤ 100 := by
    have := Int.floor_le_floor (α := ℚ) h
    simpa using this
  have hfl : (⌊q⌋ : ℚ) ≤ q := Int.floor_le q
  unfold pyRound
  dsimp only
  split_ifs with h1 h2 h3
  · exact hf
  all_goals {
    have hr : (1 : ℚ)/2 ≤ q - (⌊q⌋ : ℚ) := by linarith [not_lt.mp h1]
    have hhalf : (⌊q⌋ : ℚ) + 1/2 ≤ 100 := by linarith
    have hlt : (⌊q⌋ : ℚ) < 100 := by linarith
    have : ⌊q⌋ < 100 := by exact_mod_cast hlt
    omega }

theorem analyzeLength_bounds (t : List Char) :
    10 ≤ analyzeLength t ∧ analyzeLength t ≤ 100 := by
  unfold analyzeLength
  dsimp only
  set wc := (pyWords t).length with hwc
  split_ifs with h1 h2 h3 h4
  · norm_num
  · have l5 : (5 : ℚ) ≤ (wc : ℚ) := by exact_mod_cast Nat.not_lt.mp h1
    have l14 : (wc : ℚ) ≤ 14 := by exact_mod_cast Nat.lt_succ_iff.mp h2
    constructor <;> linarith
  · have l15 : (15 : ℚ) ≤ (wc : ℚ) := by exact_mod_cast Nat.not_lt.mp h2
    have l29 : (wc : ℚ) ≤ 29 := by exact_mod_cast Nat.lt_succ_iff.mp h3
    constructor <;> nlinarith
  · have l30 : (30 : ℚ) ≤ (wc : ℚ) := by exact_mod_cast Nat.not_lt.mp h3
    have l49 : (wc : ℚ) ≤ 49 := by exact_mod_cast Nat.lt_succ_iff.mp h4
    constructor <;> linarith
  · have l50 : (50 : ℚ) ≤ (wc : ℚ) := by exact_mod_cast Nat.not_lt.mp h4
    constructor
    · refine le_min (by norm_num) (by linarith)
    · exact min_le_left _ _

theorem vocabOfWords_bounds (ws : List (List Char)) :
    20 ≤ vocabOfWords ws ∧ vocabOfWords ws ≤ 100 := by
  unfold vocabOfWords
  dsimp only
  have hbase : 20 ≤ vocabBase (technicalCount ws) := by
    unfold vocabBase
    split_ifs with h1 h2 h3
    · norm_num
    · norm_num
    · norm_num
    · have : (0 : ℚ) ≤ min 20 ((technicalCount ws : ℚ) * 2) := by
        refine le_min (by norm_num) (by positivity)
      linarith
  have hbonus : (0 : ℚ) ≤ (if 3/10 <
      (if ws.length = 0 then (0:ℚ) else (technicalCount ws : ℚ) / (ws.length : ℚ))
      then (10:ℚ) else 0) := by
    split_ifs <;> norm_num
  constructor
  · refine le_min (by norm_num) (by linarith)
  · exact min_le_left _ _

theorem analyzeStructure_bounds (t : List Char) :
    20 ≤ analyzeStructure t ∧ analyzeStructure t ≤ 100 := by
  unfold analyzeStructure
  dsimp only
  set sc := countSentenceRuns t
  set cp := countComplexPunct t
  set cw := countComplexStructureWords t
  have hbase : (20 : ℚ) ≤
      (if sc ≤ 1 then (20:ℚ) else if sc = 2 then 40 else if sc = 3 then 60
       else 70 + min 30 ((sc : ℚ) * 5)) := by
    split_ifs with h1 h2 h3
    · norm_num
    · norm_num
    · norm_num
    · have : (0 : ℚ) ≤ min 30 ((sc : ℚ) * 5) := le_min (by norm_num) (by positivity)
      linarith
  have hp : (0 : ℚ) ≤ min 20 ((cp : ℚ) * 3) := le_min (by norm_num) (by positivity)
  have hs : (0 : ℚ) ≤ min 15 ((cw : ℚ) * 10) := le_min (by norm_num) (by positivity)
  constructor
  · refine le_min (by norm_num) (by linarith)
  · exact min_le_left _ _

theorem analyzeAmbiguity_bounds (t : List Char) :
    10 ≤ analyzeAmbiguity t ∧ analyzeAmbiguity t ≤ 100 := by
  unfold analyzeAmbiguity
  dsimp only
  have hq : (0:ℚ) ≤ (if t.contains '?' ||
      interrogativeWords.any (fun q => containsSub q.data t) then (40:ℚ) else 0) := by
    split_ifs <;> norm_num
  have h2 : (0:ℚ) ≤ min 30 ((findallWordBounded negationAlts t : ℚ) * 15) :=
    le_min (by norm_num) (by positivity)
  have h3 : (0:ℚ) ≤ min 30 ((findallWordBounded conditionAlts t : ℚ) * 20) :=
    le_min (by norm_num) (by positivity)
  have h4 : (0:ℚ) ≤ min 20 ((findallWordBounded uncertaintyAlts t : ℚ) * 15) :=
    le_min (by norm_num) (by positivity)
  constructor
  · refine le_min (by norm_num) (by linarith)
  · exact min_le_left _ _

/-- C7: for non-empty text, the global score equals the weighted sub-score
sum, rounded (half to even, Python's `round`) and clamped to [0,100]; it is
an integer in [0,100]; and re-analyzing identical input yields the same
score and breakdown.  (The code clamps before rounding; the two orders
agree because the weighted sum already lies in [0,100].) -/
theorem C7_score_formula (text : String) (h : pyStrip text.data ≠ []) :
    (analyze text).1 =
      max 0 (min 100 (pyRound
        ((25/100) * analyzeLength (pyStrip (text.data.map pyCharLower)) +
         (35/100) * analyzeVocabulary (pyStrip (text.data.map pyCharLower)) +
         (25/100) * analyzeStructure (pyStrip (text.data.map pyCharLower)) +
         (15/100) * analyzeAmbiguity (pyStrip (text.data.map pyCharLower))))) ∧
    0 ≤ (analyze text).1 ∧ (analyze text).1 ≤ 100 ∧
    (∀ t2 : String, t2 = text → analyze t2 = analyze text) := by
  have hL := analyzeLength_bounds (pyStrip (text.data.map pyCharLower))
  have hV : 20 ≤ analyzeVocabulary (pyStrip (text.data.map pyCharLower)) ∧
      analyzeVocabulary (pyStrip (text.data.map pyCharLower)) ≤ 100 :=
    vocabOfWords_bounds (pyWords (pyStrip (text.data.map pyCharLower)))
  have hS := analyzeStructure_bounds (pyStrip (text.data.map pyCharLower))
  have hA := analyzeAmbiguity_bounds (pyStrip (text.data.map pyCharLower))
  set L := analyzeLength (pyStrip (text.data.map pyCharLower)) with hLdef
  set V := analyzeVocabulary (pyStrip (text.data.map pyCharLower)) with hVdef
  set S := analyzeStructure (pyStrip (text.data.map pyCharLower)) with hSdef
  set A := analyzeAmbiguity (pyStrip (text.data.map pyCharLower)) with hAdef
  have hg0 : 0 ≤ L * (25/100) + V * (35/100) + S * (25/100) + A * (15/100) := by
    rcases hL with ⟨a, _⟩; rcases hV with ⟨b, _⟩; rcases hS with ⟨c, _⟩; rcases hA with ⟨d, _⟩
    linarith
  have hg100 : L * (25/100) + V * (35/100) + S * (25/100) + A * (15/100) ≤ 100 := by
    rcases hL with ⟨_, a⟩; rcases hV with ⟨_, b⟩; rcases hS with ⟨_, c⟩; rcases hA with ⟨_, d⟩
    linarith
  have hclamp : min 100 (max 0 (L * (25/100) + V * (35/100) + S * (25/100) + A * (15/100)))
      = L * (25/100) + V * (35/100) + S * (25/100) + A * (15/100) := by
    rw [max_eq_right hg0, min_eq_right hg100]
  have hscore : (analyze text).1 =
      pyRound (L * (25/100) + V * (35/100) + S * (25/100) + A * (15/100)) := by
    simp only [analyze, if_neg h, hLdef, hVdef, hSdef, hAdef, hclamp]
  have hcomm : (25/100) * L + (35/100) * V + (25/100) * S + (15/100) * A
      = L * (25/100) + V * (35/100) + S * (25/100) + A * (15/100) := by ring
  have hr0 := pyRound_nonneg _ hg0
  have hr100 := pyRound_le _ hg100
  refine ⟨?_, ?_, ?_, ?_⟩
  · rw [hscore, hcomm, min_eq_right hr100, max_eq_right hr0]
  · rw [hscore]; exact hr0
  · rw [hscore]; exact hr100
  · intro t2 ht2; rw [ht2]

/-- C7 witness: the score formula applied to the ticket "Souris cassée". -/
theorem C7_score_formula_witness :
    (analyze "Souris cassée").1 =
      max 0 (min 100 (pyRound
        ((25/100) * analyzeLength (pyStrip ("Souris cassée".data.map pyCharLower)) +
         (35/100) * analyzeVocabulary (pyStrip ("Souris cassée".data.map pyCharLower)) +
         (25/100) * analyzeStructure (pyStrip ("Souris cassée".data.map pyCharLower)) +
         (15/100) * analyzeAmbiguity (pyStrip ("Souris cassée".data.map pyCharLower))))) ∧
    0 ≤ (analyze "Souris cassée").1 ∧ (analyze "Souris cassée").1 ≤ 100 ∧
    (∀ t2 : String, t2 = "Souris cassée" → analyze t2 = analyze "Souris cassée") :=
  C7_score_formula "Souris cassée" (by decide)

/-! ### Vocabulary monotonicity (C8) -/

theorem pyWordsAux_append_space (a b cur : List Char) :
    pyWordsAux (a ++ ' ' :: b) cur = pyWordsAux a cur ++ pyWords b := by
  induction a generalizing cur with
  | nil =>
    by_cases hc : cur = [] <;>
      simp [pyWordsAux, pyWords, hc, (by decide : (' ' : Char).isWhitespace = true)]
  | cons c a ih =>
    by_cases hw : c.isWhitespace
    · by_cases hc : cur = [] <;> simp [pyWordsAux, hw, hc, ih]
    · simp [pyWordsAux, hw, ih]

theorem pyWordsAux_all_nonws (w : List Char) (cur : List Char)
    (hw : ∀ c ∈ w, c.isWhitespace = false) :
    pyWordsAux w cur = if cur.reverse ++ w = [] then [] else [cur.reverse ++ w] := by
  induction w generalizing cur with
  | nil =>
    by_cases hc : cur = [] <;> simp [pyWordsAux, hc]
  | cons c cs ih =>
    have hc := hw c (List.mem_cons_self c cs)
    rw [pyWordsAux]
    simp only [hc, Bool.false_eq_true, if_false]
    rw [ih (c :: cur) (fun d hd => hw d (List.mem_cons_of_mem c hd))]
    simp [List.reverse_cons, List.append_assoc]

/-- Appending one whitespace-free word to the text appends exactly that
word to the `split()` result. -/
theorem pyWords_append_word (a w : List Char) (hne : w ≠ [])
    (hnw : ∀ c ∈ w, c.isWhitespace = false) :
    pyWords (a ++ ' ' :: w) = pyWords a ++ [w] := by
  rw [pyWords, pyWordsAux_append_space]
  unfold pyWords
  rw [pyWordsAux_all_nonws w [] hnw]
  simp [hne]

theorem vocabBase_mono_succ (t : Nat) : vocabBase t ≤ vocabBase (t + 1) := by
  match t with
  | 0 => norm_num [vocabBase]
  | 1 => norm_num [vocabBase]
  | 2 => norm_num [vocabBase]
  | 3 => norm_num [vocabBase]
  | 4 => norm_num [vocabBase]
  | n + 5 =>
    have h1 : ¬ (n + 5 = 0) := by omega
    have h2 : ¬ (n + 5 ≤ 2) := by omega
    have h3 : ¬ (n + 5 ≤ 4) := by omega
    have h4 : ¬ (n + 5 + 1 = 0) := by omega
    have h5 : ¬ (n + 5 + 1 ≤ 2) := by omega
    have h6 : ¬ (n + 5 + 1 ≤ 4) := by omega
    simp only [vocabBase, h1, h2, h3, h4, h5, h6, if_false]
    have hm : ((n + 5 : Nat) : ℚ) * 2 ≤ ((n + 5 + 1 : Nat) : ℚ) * 2 := by
      push_cast
      linarith
    have := min_le_min (le_refl (20 : ℚ)) hm
    linarith

theorem technicalCount_snoc_tech (ws : List (List Char)) (w : List Char)
    (hw : isTechnicalWord w = true) :
    technicalCount (ws ++ [w]) = technicalCount ws + 1 := by
  simp [technicalCount, List.filter_append, hw]

theorem density_mono (t n : Nat) (htn : t ≤ n) :
    (if n = 0 then (0:ℚ) else (t : ℚ) / (n : ℚ)) ≤ ((t : ℚ) + 1) / ((n : ℚ) + 1) := by
  split_ifs with h
  · positivity
  · have hn : (0 : ℚ) < (n : ℚ) := by
      have : 0 < n := Nat.pos_of_ne_zero h
      exact_mod_cast this
    rw [div_le_div_iff₀ hn (by linarith)]
    have htn2 : (t : ℚ) ≤ (n : ℚ) := by exact_mod_cast htn
    nlinarith

/-- Adding one technical word to the word list never decreases the
vocabulary sub-score: the bucketed base, the over-30% density bonus, and
the cap at 100 are all monotone under this change. -/
theorem vocabOfWords_snoc_tech (ws : List (List Char)) (w : List Char)
    (hw : isTechnicalWord w = true) :
    vocabOfWords ws ≤ vocabOfWords (ws ++ [w]) := by
  unfold vocabOfWords
  dsimp only
  rw [technicalCount_snoc_tech ws w hw]
  have hlen : (ws ++ [w]).length = ws.length + 1 := by simp
  rw [hlen]
  have hlen0 : ¬ (ws.length + 1 = 0) := by omega
  have htn : technicalCount ws ≤ ws.length := List.length_filter_le _ _
  have hdens := density_mono (technicalCount ws) ws.length htn
  have hcast : ((technicalCount ws + 1 : Nat) : ℚ) = (technicalCount ws : ℚ) + 1 := by
    push_cast; ring
  have hcast2 : ((ws.length + 1 : Nat) : ℚ) = (ws.length : ℚ) + 1 := by
    push_cast; ring
  refine min_le_min (le_refl 100) ?_
  have hbase := vocabBase_mono_succ (technicalCount ws)
  have hbonus :
      (if 3/10 < (if ws.length = 0 then (0:ℚ) else (technicalCount ws : ℚ) / (ws.length : ℚ))
        then (10:ℚ) else 0) ≤
      (if 3/10 < (if ws.length + 1 = 0 then (0:ℚ)
          else ((technicalCount ws + 1 : Nat) : ℚ) / ((ws.length + 1 : Nat) : ℚ))
        then (10:ℚ) else 0) := by
    simp only [hlen0, if_false, hcast, hcast2]
    by_cases ha : ws.length = 0
    · simp only [ha, if_true]
      have hb0 : ¬ ((3:ℚ)/10 < 0) := by norm_num
      rw [if_neg hb0]
      split_ifs with hc
      · norm_num
      · norm_num
    · simp only [ha, if_false]
      have hdens2 : (technicalCount ws : ℚ) / (ws.length : ℚ) ≤
          ((technicalCount ws : ℚ) + 1) / ((ws.length : ℚ) + 1) := by
        simpa [ha] using hdens
      split_ifs with hb hc
      · norm_num
      · exact absurd (lt_of_lt_of_le hb hdens2) hc
      · norm_num
      · norm_num
  exact add_le_add hbase hbonus

/-- Appending words to a text, each separated by a space
(`text + " " + w1 + " " + w2 + ...`). -/
def appendWords (text : List Char) (ws : List (List Char)) : List Char :=
  ws.foldl (fun acc w => acc ++ ' ' :: w) text

/-- C8: appending one or more whitespace-free words that each contain a
technical keyword (as a substring, exactly the code's matching rule) never
decreases the vocabulary sub-score. -/
theorem C8_vocabulary_monotone (text : List Char) (ws : List (List Char))
    (h : ∀ w ∈ ws, w ≠ [] ∧ (∀ c ∈ w, c.isWhitespace = false) ∧ isTechnicalWord w = true) :
    analyzeVocabulary text ≤ analyzeVocabulary (appendWords text ws) := by
  induction ws generalizing text with
  | nil => exact le_refl _
  | cons w ws ih =>
    obtain ⟨hne, hnw, htech⟩ := h w (List.mem_cons_self w ws)
    have hstep : analyzeVocabulary text ≤ analyzeVocabulary (text ++ ' ' :: w) := by
      unfold analyzeVocabulary
      rw [pyWords_append_word text w hne hnw]
      exact vocabOfWords_snoc_tech _ _ htech
    have hrest := ih (text ++ ' ' :: w) (fun v hv => h v (List.mem_cons_of_mem w hv))
    have hfold : appendWords text (w :: ws) = appendWords (text ++ ' ' :: w) ws := rfl
    rw [hfold]
    exact le_trans hstep hrest

/-- C8 witness: appending the technical keyword "bug" to "bonjour". -/
theorem C8_vocabulary_monotone_witness :
    analyzeVocabulary "bonjour".data ≤
      analyzeVocabulary (appendWords "bonjour".data ["bug".data]) :=
  C8_vocabulary_monotone "bonjour".data ["bug".data] (by decide)

/-! ## IntelligentAgent (ia_agent/intelligent_agent.py) and the API
orchestrator (ia_agent/api.py)

The two downstream classifier services and the explanation generator are
opaque collaborators: their (normalized) results are parameters of the
orchestrator model.  The conversation-store write is fire-and-forget and
does not influence the response or the cache, so it is not part of the
state here.  The two booleans returned by `predictWithRouting` record
whether `cache_manager.get` and `cache_manager.set` were invoked. -/

/-- Python `details.get('word_count', 0)` (error dicts give the default). -/
def detailsWordCount : Option AnalyzeDetails → Nat
  | none => 0
  | some d => d.word_count

/-- Python `details.get('vocabulary_score', 0)`. -/
def detailsVocabularyScore : Option AnalyzeDetails → ℚ
  | none => 0
  | some d => d.vocabulary_score

/-- Python `details.get('structure_score', 0)`. -/
def detailsStructureScore : Option AnalyzeDetails → ℚ
  | none => 0
  | some d => d.structure_score

/-- `IntelligentAgent.THRESHOLDS['simple']` (line 30). -/
def agentThresholdSimple : ℤ := 30

/-- `IntelligentAgent.THRESHOLDS['medium']` (line 31). -/
def agentThresholdMedium : ℤ := 60

/-- `MODEL_MAPPING[level]['name']` (lines 35-54). -/
def modelMappingName (level : String) : String :=
  if level = "simple" then "distilbert"
  else if level = "medium" then "bert-base"
  else "gpt-llm"

/-- `IntelligentAgent._generate_reasoning` (lines 133-173). -/
def generateReasoning (score : ℤ) (level : String) (details : Option AnalyzeDetails) :
    String :=
  let wc := detailsWordCount details
  let vs := detailsVocabularyScore details
  let ss := detailsStructureScore details
  let mainReasons : List String :=
    if level = "simple" then
      ["Texte simple (score " ++ toString score ++ "/100)", "Requête courte et directe"]
    else if level = "medium" then
      ["Texte de complexité moyenne (score " ++ toString score ++ "/100)",
       toString wc ++ " mots avec vocabulaire modéré"]
    else
      ["Texte complexe (score " ++ toString score ++ "/100)",
       "Requête longue avec contexte détaillé"]
  let withVocab := mainReasons ++
    (if 70 < vs then ["Vocabulaire technique important"] else [])
  let withStruct := withVocab ++
    (if 70 < ss then ["Structure grammaticale complexe"] else [])
  let allReasons := withStruct ++ ["→ Utilisation de " ++ modelMappingName level]
  String.intercalate " | " allReasons

/-- The dict returned by `IntelligentAgent.route` (lines 120-127); the
process-lifetime usage counters only feed `/stats` and are not modelled. -/
structure RouteResult where
  model : String
  complexity_score : ℤ
  complexity_level : String
  details : Option AnalyzeDetails
  reasoning : String
deriving DecidableEq

/-- `IntelligentAgent.route` (lines 81-131) in the configuration used by
the API (`use_distilbert_for_all=False`, api.py line 56). -/
def route (text : String) : RouteResult :=
  let a := analyze text
  let level := if a.1 < agentThresholdSimple then "simple"
               else if a.1 < agentThresholdMedium then "medium" else "complex"
  { model := modelMappingName level, complexity_score := a.1, complexity_level := level,
    details := a.2, reasoning := generateReasoning a.1 level a.2 }

/-- The response dict built by `predict_with_routing` (api.py lines
501-515); `complexity_analysis` is flattened into score/level/details. -/
structure Response where
  input : String
  prediction : String
  probabilities : List (String × ℚ)
  model_used : String
  complexity_score : ℤ
  complexity_level : String
  complexity_details : Option AnalyzeDetails
  reasoning : String
  generated_response : String
  session_id : String
  cache_hit : Bool
deriving DecidableEq

/-- `COMPLEXITY_THRESHOLD` default (api.py line 68). -/
def COMPLEXITY_THRESHOLD : ℤ := 35

/-- The routing comparison of api.py lines 463 and 386:
`"tfidf" if complexity_score < COMPLEXITY_THRESHOLD else "transformer"`. -/
def autoRoute (score threshold : ℤ) : String :=
  if score < threshold then "tfidf" else "transformer"

/-- Model selection of api.py lines 457-464 (`if request.force_model:` uses
Python truthiness, so an empty string behaves like no override). -/
def chooseModel (force : Option String) (score threshold : ℤ) : String :=
  match force with
  | some m => if m = "" then autoRoute score threshold else m.toLower
  | none => autoRoute score threshold

/-- Python truthiness of `request.force_model`. -/
def isForced : Option String → Bool
  | none => false
  | some s => s != ""

/-- `session_id = request.session_id or str(uuid.uuid4())` (api.py line 412). -/
def sessionOf : Option String → String → String
  | none, fresh => fresh
  | some s, fresh => if s = "" then fresh else s

/-- `TextRequest` (api.py lines 292-304). -/
structure PredictInput where
  text : String
  force_model : Option String
  session_id : Option String
  conversation_title : Option String
deriving DecidableEq

/-- Normalized results of the opaque collaborators consumed on the miss
path: the classifier response (after `_call_model` normalization) and the
generated explanation text. -/
structure Downstream where
  prediction : String
  probabilities : List (String × ℚ)
  generated_response : String
deriving DecidableEq

/-- The in-place mutation of a payload dict that is stored in the cache:
`CacheManager.get` returns `entry['data']` by reference, so assignments to
the returned dict (api.py lines 420-421) update the stored entry too. -/
def cacheSetData (s : CacheState α) (key : String) (d : α) : CacheState α :=
  cacheModify s key (fun e => { e with data := d })

/-- The miss path of `predict_with_routing` (api.py lines 452-540): score,
route, call the classifier, generate the explanation, build the response
with `cache_hit: False`, and cache it unless the cache is disabled or a
model is forced. -/
def predictMiss (cacheEnabled : Bool) (ttl : Nat) (threshold : ℤ) (req : PredictInput)
    (ds : Downstream) (sid : String) (now : Nat) (cache : CacheState Response)
    (didRead : Bool) : Response × CacheState Response × Bool × Bool :=
  let rr := route req.text
  let modelToUse := chooseModel req.force_model rr.complexity_score threshold
  let resp : Response :=
    { input := req.text, prediction := ds.prediction, probabilities := ds.probabilities,
      model_used := modelToUse, complexity_score := rr.complexity_score,
      complexity_level := rr.complexity_level, complexity_details := rr.details,
      reasoning := rr.reasoning ++ " → Modèle utilisé: " ++ modelToUse.toUpper,
      generated_response := ds.generated_response, session_id := sid, cache_hit := false }
  if cacheEnabled && !(isForced req.force_model) then
    (resp, cacheSet cache now ttl req.text resp none, didRead, true)
  else
    (resp, cache, didRead, false)

/-- `predict_with_routing` (api.py lines 402-540).  Returns the response,
the cache state after the request, and whether a cache read / cache write
was performed.  On a hit the handler writes `session_id` and
`cache_hit=True` into the returned dict, which is the stored dict itself,
so the entry's payload is updated through the shared reference
(`cacheSetData`). -/
def predictWithRouting (cacheEnabled : Bool) (ttl : Nat) (threshold : ℤ)
    (req : PredictInput) (ds : Downstream) (freshUuid : String) (now : Nat)
    (cache : CacheState Response) : Response × CacheState Response × Bool × Bool :=
  let sid := sessionOf req.session_id freshUuid
  if cacheEnabled && !(isForced req.force_model) then
    match cacheGet cache now req.text none with
    | (some cached, cache1) =>
      let resp := { cached with session_id := sid, cache_hit := true }
      (resp, cacheSetData cache1 (keyData req.text none) resp, true, false)
    | (none, cache1) =>
      predictMiss cacheEnabled ttl threshold req ds sid now cache1 true
  else
    predictMiss cacheEnabled ttl threshold req ds sid now cache false

/-- C4: without an override, the selected back-end is `tfidf` exactly when
the score is strictly below the threshold and `transformer` exactly when it
is at or above it; the default threshold is 35; and for a fixed threshold
the same score always selects the same back-end. -/
theorem C4_threshold_routing (score threshold : ℤ) :
    (chooseModel none score threshold = "tfidf" ↔ score < threshold) ∧
    (chooseModel none score threshold = "transformer" ↔ threshold ≤ score) ∧
    COMPLEXITY_THRESHOLD = 35 ∧
    (∀ s2 : ℤ, s2 = score →
      chooseModel none s2 threshold = chooseModel none score threshold) := by
  have hne : ("tfidf" : String) ≠ "transformer" := by decide
  refine ⟨?_, ?_, rfl, fun s2 hs2 => by rw [hs2]⟩
  · by_cases h : score < threshold
    · simp [chooseModel, autoRoute, h]
    · simp [chooseModel, autoRoute, h, Ne.symm hne]
  · by_cases h : score < threshold
    · simp [chooseModel, autoRoute, h, hne]
    · simp [chooseModel, autoRoute, h]
      omega

/-- C4 witness: score 20 routes to `tfidf` and score 40 to `transformer`
under the default threshold 35. -/
theorem C4_threshold_routing_witness :
    chooseModel none 20 35 = "tfidf" ∧ chooseModel none 40 35 = "transformer" ∧
    COMPLEXITY_THRESHOLD = 35 :=
  ⟨(C4_threshold_routing 20 35).1.mpr (by omega),
   (C4_threshold_routing 40 35).2.1.mpr (by omega),
   (C4_threshold_routing 40 35).2.2.1⟩

/-- Result of the `/config/threshold` endpoint (api.py lines 693-717): the
success payload carries the old and new threshold; out-of-range values
raise HTTP 400. -/
inductive ThresholdUpdateResult
  | ok (old new : ℤ)
  | clientError (status : Nat) (detail : String)
deriving DecidableEq

/-- `update_threshold` (api.py lines 693-717): validates `0 <= v <= 100`,
rejects with a 400 client error leaving the global threshold unchanged,
otherwise installs the new threshold. -/
def updateThreshold (current newT : ℤ) : ThresholdUpdateResult × ℤ :=
  if ¬ (0 ≤ newT ∧ newT ≤ 100) then
    (ThresholdUpdateResult.clientError 400 "Le seuil doit être entre 0 et 100", current)
  else
    (ThresholdUpdateResult.ok current newT, newT)

def isOkResult : ThresholdUpdateResult → Bool
  | ThresholdUpdateResult.ok _ _ => true
  | ThresholdUpdateResult.clientError _ _ => false

/-- C5: a threshold update succeeds exactly when the value is within
[0,100]; out-of-range values are rejected with a 400 client error and the
previous threshold remains in effect. -/
theorem C5_threshold_validation (current newT : ℤ) :
    (isOkResult (updateThreshold current newT).1 = true ↔ 0 ≤ newT ∧ newT ≤ 100) ∧
    ((0 ≤ newT ∧ newT ≤ 100) → (updateThreshold current newT).2 = newT) ∧
    (¬ (0 ≤ newT ∧ newT ≤ 100) →
      (updateThreshold current newT).1 =
        ThresholdUpdateResult.clientError 400 "Le seuil doit être entre 0 et 100" ∧
      (updateThreshold current newT).2 = current) := by
  by_cases h : 0 ≤ newT ∧ newT ≤ 100 <;> simp [updateThreshold, isOkResult, h]

/-- C5 witness: updating 35 to 101 is rejected and keeps 35; updating 35
to 50 installs 50. -/
theorem C5_threshold_validation_witness :
    (updateThreshold 35 101).1 =
      ThresholdUpdateResult.clientError 400 "Le seuil doit être entre 0 et 100" ∧
    (updateThreshold 35 101).2 = 35 ∧
    (updateThreshold 35 50).2 = 50 :=
  ⟨((C5_threshold_validation 35 101).2.2 (by omega)).1,
   ((C5_threshold_validation 35 101).2.2 (by omega)).2,
   (C5_threshold_validation 35 50).2.1 (by omega)⟩

/-- C6: a request with an explicit forced back-end performs neither a cache
read nor a cache write, leaves the cache unchanged, and its response has
`cache_hit = false` — for every prior cache state, hence also immediately
after an identical text was served and cached without an override. -/
theorem C6_override_bypasses_cache (cacheEnabled : Bool) (ttl : Nat) (threshold : ℤ)
    (req : PredictInput) (ds : Downstream) (freshUuid : String) (now : Nat)
    (cache : CacheState Response) (h : isForced req.force_model = true) :
    (predictWithRouting cacheEnabled ttl threshold req ds freshUuid now cache).2.2.1 = false ∧
    (predictWithRouting cacheEnabled ttl threshold req ds freshUuid now cache).2.2.2 = false ∧
    (predictWithRouting cacheEnabled ttl threshold req ds freshUuid now cache).2.1 = cache ∧
    (predictWithRouting cacheEnabled ttl threshold req ds freshUuid now cache).1.cache_hit
      = false := by
  simp [predictWithRouting, predictMiss, h]

/-- C6 witness: a forced `tfidf` request against the empty cache. -/
theorem C6_override_bypasses_cache_witness :
    (predictWithRouting true 3600 35 ⟨"t", some "tfidf", none, none⟩ ⟨"Hardware", [], "ok"⟩
      "u" 0 []).2.2.1 = false ∧
    (predictWithRouting true 3600 35 ⟨"t", some "tfidf", none, none⟩ ⟨"Hardware", [], "ok"⟩
      "u" 0 []).2.2.2 = false ∧
    (predictWithRouting true 3600 35 ⟨"t", some "tfidf", none, none⟩ ⟨"Hardware", [], "ok"⟩
      "u" 0 []).2.1 = [] ∧
    (predictWithRouting true 3600 35 ⟨"t", some "tfidf", none, none⟩ ⟨"Hardware", [], "ok"⟩
      "u" 0 []).1.cache_hit = false :=
  C6_override_bypasses_cache true 3600 35 ⟨"t", some "tfidf", none, none⟩
    ⟨"Hardware", [], "ok"⟩ "u" 0 [] (by decide)

/-- C10: serving a cache hit mutates the stored payload in place.  The
handler writes the caller's session id and `cache_hit = True` into the dict
returned by `get`, which is the stored dict, so after the hit the cached
entry's payload carries `cache_hit = true` and the hitting caller's session
id, and no longer equals the payload originally passed to `set` (which had
`cache_hit = false`). -/
theorem C10_cache_hit_mutates_entry (ttl : Nat) (threshold : ℤ) (req : PredictInput)
    (ds : Downstream) (freshUuid : String) (now : Nat) (cache : CacheState Response)
    (e : CacheEntry Response)
    (hforce : req.force_model = none)
    (hfind : cacheFind cache (keyData req.text none) = some e)
    (hfresh : ¬ (e.expires_at < now))
    (horig : e.data.cache_hit = false) :
    (predictWithRouting true ttl threshold req ds freshUuid now cache).1 =
      { e.data with session_id := sessionOf req.session_id freshUuid,
                    cache_hit := true } ∧
    cacheFind (predictWithRouting true ttl threshold req ds freshUuid now cache).2.1
        (keyData req.text none) =
      some { e with hits := e.hits + 1, last_accessed := now,
                    data := { e.data with
                              session_id := sessionOf req.session_id freshUuid,
                              cache_hit := true } } ∧
    ({ e.data with session_id := sessionOf req.session_id freshUuid,
                   cache_hit := true } : Response) ≠ e.data := by
  have hget : cacheGet cache now req.text none =
      (some e.data, cacheModify cache (keyData req.text none)
        (fun e0 => { e0 with hits := e0.hits + 1, last_accessed := now })) := by
    simp [cacheGet, hfind, hfresh]
  have hout : predictWithRouting true ttl threshold req ds freshUuid now cache =
      ({ e.data with session_id := sessionOf req.session_id freshUuid, cache_hit := true },
       cacheSetData
         (cacheModify cache (keyData req.text none)
           (fun e0 => { e0 with hits := e0.hits + 1, last_accessed := now }))
         (keyData req.text none)
         { e.data with session_id := sessionOf req.session_id freshUuid, cache_hit := true },
       true, false) := by
    simp only [predictWithRouting, hforce, isForced, Bool.not_false, Bool.and_true, if_true,
      hget]
  refine ⟨by rw [hout], ?_, ?_⟩
  · rw [hout]
    simp only [cacheSetData, cacheFind_modify, hfind]
    rfl
  · intro heq
    have := congrArg Response.cache_hit heq
    rw [horig] at this
    simp at this

/-- C10 witness: a hit on a singleton cache whose payload was stored with
session id "s0" and `cache_hit = false`, served for session "sess". -/
theorem C10_cache_hit_mutates_entry_witness :
    (predictWithRouting true 3600 35 ⟨"t", none, some "sess", none⟩ ⟨"HW", [], "g"⟩ "u" 1
      [(keyData "t" none,
        ⟨⟨"t", "HW", [], "tfidf", 10, "simple", none, "r", "g", "s0", false⟩, 0, 100, 0, 0⟩)]).1 =
      { input := "t", prediction := "HW", probabilities := [], model_used := "tfidf",
        complexity_score := 10, complexity_level := "simple", complexity_details := none,
        reasoning := "r", generated_response := "g", session_id := "sess",
        cache_hit := true } ∧
    cacheFind (predictWithRouting true 3600 35 ⟨"t", none, some "sess", none⟩ ⟨"HW", [], "g"⟩
        "u" 1
        [(keyData "t" none,
          ⟨⟨"t", "HW", [], "tfidf", 10, "simple", none, "r", "g", "s0", false⟩, 0, 100, 0, 0⟩)]).2.1
        (keyData "t" none) =
      some ⟨⟨"t", "HW", [], "tfidf", 10, "simple", none, "r", "g", "sess", true⟩, 0, 100, 1, 1⟩ ∧
    (⟨"t", "HW", [], "tfidf", 10, "simple", none, "r", "g", "sess", true⟩ : Response) ≠
      ⟨"t", "HW", [], "tfidf", 10, "simple", none, "r", "g", "s0", false⟩ :=
  C10_cache_hit_mutates_entry 3600 35 ⟨"t", none, some "sess", none⟩ ⟨"HW", [], "g"⟩
    "u" 1
    [(keyData "t" none,
      ⟨⟨"t", "HW", [], "tfidf", 10, "simple", none, "r", "g", "s0", false⟩, 0, 100, 0, 0⟩)]
    ⟨⟨"t", "HW", [], "tfidf", 10, "simple", none, "r", "g", "s0", false⟩, 0, 100, 0, 0⟩
    rfl (by decide) (by decide) rfl

/-! ## ConversationStore backend selection (ia_agent/cache_manager.py,
lines 184-586)

The store is constructed for one of two engines (`DB_TYPE`); every SQL
operation is modelled by the connection it opens, since the claim under
scrutiny concerns which backend each operation talks to.
`save_conversation`, `get_session_history` and `get_global_stats` open
their connection through `_get_connection` (lines 211-216);
`cleanup_old_conversations` (line 571) opens `sqlite3.connect(self.db_path)`
directly. -/

inductive DbType
  | sqlite
  | postgresql
deriving DecidableEq

/-- The PostgreSQL connection parameters (lines 198-204, env defaults). -/
structure PgConfig where
  host : String
  port : Nat
  database : String
  user : String
  password : String
deriving DecidableEq

def defaultPgConfig : PgConfig :=
  { host := "localhost", port := 5432, database := "conversations",
    user := "callcenter", password := "callcenter2024" }

/-- A database connection as opened by the store: either
`sqlite3.connect(path)` (with `path = None` possible, which is invalid) or
`psycopg2.connect(**pg_config)`. -/
inductive DbConnection
  | sqliteConn (path : Option String)
  | postgresConn (config : PgConfig)
deriving DecidableEq

/-- The state set up by `ConversationStore.__init__` (lines 187-209):
`db_path` is `None` when the PostgreSQL engine is selected (line 195). -/
structure ConversationStoreState where
  db_type : DbType
  db_path : Option String
  pg_config : PgConfig
deriving DecidableEq

def mkConversationStore (dbType : DbType) (dbPath : String) (pg : PgConfig) :
    ConversationStoreState :=
  { db_type := dbType,
    db_path := if dbType = DbType.sqlite then some dbPath else none,
    pg_config := pg }

/-- `ConversationStore._get_connection` (lines 211-216). -/
def getConnection (s : ConversationStoreState) : DbConnection :=
  match s.db_type with
  | DbType.postgresql => DbConnection.postgresConn s.pg_config
  | DbType.sqlite => DbConnection.sqliteConn s.db_path

/-- Connection opened by `save_conversation` (line 344). -/
def saveConversationConn (s : ConversationStoreState) : DbConnection := getConnection s

/-- Connection opened by `get_session_history` (line 408). -/
def sessionHistoryConn (s : ConversationStoreState) : DbConnection := getConnection s

/-- Connection opened by `get_global_stats` (line 482). -/
def globalStatsConn (s : ConversationStoreState) : DbConnection := getConnection s

/-- Connection opened by `cleanup_old_conversations` (line 571):
`sqlite3.connect(self.db_path)`, unconditionally SQLite. -/
def cleanupOldConversationsConn (s : ConversationStoreState) : DbConnection :=
  DbConnection.sqliteConn s.db_path

/-- C9: save, history and stats go through the selected backend, but the
retention cleanup always opens `sqlite3.connect(self.db_path)`.  Under the
PostgreSQL engine `db_path` is `None`, so the cleanup opens an invalid
SQLite connection instead of the selected backend — the two backends are
not interchangeable for this operation. -/
theorem C9_cleanup_wrong_backend :
    saveConversationConn
        (mkConversationStore DbType.postgresql "/app/data/conversations.db" defaultPgConfig) =
      getConnection
        (mkConversationStore DbType.postgresql "/app/data/conversations.db" defaultPgConfig) ∧
    sessionHistoryConn
        (mkConversationStore DbType.postgresql "/app/data/conversations.db" defaultPgConfig) =
      getConnection
        (mkConversationStore DbType.postgresql "/app/data/conversations.db" defaultPgConfig) ∧
    globalStatsConn
        (mkConversationStore DbType.postgresql "/app/data/conversations.db" defaultPgConfig) =
      getConnection
        (mkConversationStore DbType.postgresql "/app/data/conversations.db" defaultPgConfig) ∧
    cleanupOldConversationsConn
        (mkConversationStore DbType.postgresql "/app/data/conversations.db" defaultPgConfig) =
      DbConnection.sqliteConn none ∧
    cleanupOldConversationsConn
        (mkConversationStore DbType.postgresql "/app/data/conversations.db" defaultPgConfig) ≠
      getConnection
        (mkConversationStore DbType.postgresql "/app/data/conversations.db" defaultPgConfig) := by
  refine ⟨rfl, rfl, rfl, by decide, by decide⟩
